import Mathlib

/-!
Verification of the `SpaceBuilder` orchestrator (`app.py`).

The program is a linear orchestration of remote calls with light local
validation.  We embed it shallowly:

* Python strings become `List Char` (`PyStr`); `str.split("\n")` becomes
  `splitNl`, `"\n".join` becomes `joinNl`, `str.isspace` becomes
  `pyIsSpace`.
* The class-level mutable result fields `error_message` and `url` become an
  explicit state record `SBState` threaded through every operation.
* Every remote or filesystem call (`get_full_repo_name`, `requests.get`,
  `gr.Interface.load`, `create_repo`, `open`/`write`, `upload_file`) is
  abstracted by an environment record whose fields give, per call, either the
  returned value or the fact that the call raised (`Option`/`Bool`).
* A Python `return True` / `return False` / uncaught exception becomes the
  three-valued `Outcome`; the try/except blocks of the source are reflected
  exactly, so a step whose exception the source does NOT catch yields
  `Outcome.raised`.
* The lifetime of the temporary file handle in `create_space` is tracked by a
  `FileTrace` (was it opened, was it closed) so that resource-safety claims
  are expressible.
-/

namespace SpaceBuilder

/-- A Python string, modelled as its list of characters. -/
abbrev PyStr := List Char

/-- Coerce a Lean string literal to the model's string type. -/
def pyS (s : String) : PyStr := s.toList

/-- The characters Python's `str.isspace` treats as whitespace (the ASCII and
Latin-1 whitespace; further Unicode space characters behave identically and
never occur in the program's fixed strings). -/
def isPySpaceChar (c : Char) : Bool :=
  c = ' ' || c = '\t' || c = '\n' || c = '\r' || c = '\x0b' || c = '\x0c' ||
  c = '\x1c' || c = '\x1d' || c = '\x1e' || c = '\x1f' || c = '\x85' || c = '\xa0'

/-- Python `s.isspace()`: true iff `s` is non-empty and all of its characters
are whitespace. -/
def pyIsSpace (s : PyStr) : Bool := !s.isEmpty && s.all isPySpaceChar

/-- The test `s == "" or s.isspace()` used both by the line filter in
`split_space_names` and by the field validation in `build_space`. -/
def pyBlank (s : PyStr) : Bool := s.isEmpty || pyIsSpace s

/-- Python `s.split("\n")`: split on every newline character.  `[]` yields
`[[]]`, matching `"".split("\n") == ['']`. -/
def splitNl : List Char → List PyStr
  | [] => [[]]
  | c :: rest =>
    match splitNl rest with
    | [] => [[]]
    | l :: ls => if c = '\n' then [] :: l :: ls else (c :: l) :: ls

/-- Python `"\n".join(ls)`. -/
def joinNl : List PyStr → PyStr
  | [] => []
  | [l] => l
  | l :: l' :: ls => l ++ '\n' :: joinNl (l' :: ls)

/-- `SpaceBuilder.split_space_names` (app.py lines 19-32): split the raw text
on newlines and keep, in order, every line that is neither empty nor
whitespace-only.  The source's append loop is the filter. -/
def split_space_names (names : PyStr) : List PyStr :=
  (splitNl names).filter (fun name => !pyBlank name)

/-- Python `s.strip()`: drop leading and trailing whitespace.  The source never
calls it; it is needed only to state the spec's "trimmed" claim. -/
def pyStrip (s : PyStr) : PyStr :=
  ((s.dropWhile isPySpaceChar).reverse.dropWhile isPySpaceChar).reverse

/-- Modelled from the spec (section 4.1): "ordered sequence of trimmed,
non-blank lines".  This is the spec's variant of `split_space_names`, used
only to compare against the source's behaviour. -/
def split_space_names_spec (names : PyStr) : List PyStr :=
  ((splitNl names).filter (fun name => !pyBlank name)).map pyStrip

/-! ## Class-level result state and the fixed user-facing messages -/

/-- The class attributes `SpaceBuilder.error_message` and `SpaceBuilder.url`
(app.py lines 16-17), both initially `None`. -/
structure SBState where
  error_message : Option PyStr
  url : Option PyStr
deriving DecidableEq

/-- The fresh state at class definition time. -/
def initState : SBState := ⟨none, none⟩

def fillAllInputsMsg : PyStr := pyS "Please fill all the inputs"

def incorrectTokenMsg : PyStr := pyS "You have given an incorrect HuggingFace token"

/-- `f"The {repo_name} is already used."` -/
def alreadyUsedMsg (repo_name : PyStr) : PyStr :=
  pyS "The " ++ repo_name ++ pyS " is already used."

def networkMsg : PyStr := pyS "Can not send a request to https://huggingface.co"

def unloadableMsg : PyStr :=
  pyS "One of the given space cannot be loaded to gradio, sorry for the inconvenience. \nPlease use different input space names!"

def inputMismatchMsg : PyStr := pyS "Provided space input types are different"

def outputMismatchMsg : PyStr := pyS "Provided space output types are different"

def badTargetNameMsg : PyStr :=
  pyS "Please provide a correct space name as Only regular characters and \x27-\x27, \x27_\x27, \x27.\x27 accepted. \x27--\x27 and \x27..\x27 are forbidden. \x27-\x27 and \x27.\x27 cannot start or end the name."

def fileWriteMsg : PyStr := pyS "An exception occurred during temporary file writing"

def uploadFailMsg : PyStr := pyS "An exception occurred during writing app.py to the target space"

/-- `f"https://huggingface.co/spaces/{repo_name}"`, used both for the
existence probe and for the final browsable URL. -/
def spacesUrl (repo_name : PyStr) : PyStr :=
  pyS "https://huggingface.co/spaces/" ++ repo_name

/-- How a Python call exits: `return True`, `return False`, or an exception
that the function does not catch. -/
inductive Outcome where
  | retTrue
  | retFalse
  | raised
deriving DecidableEq

/-! ## Interface descriptors and `control_input_and_output_types` -/

/-- A gradio input/output component.  `kind` stands for the Python class of
the component (what `type(c)` returns); `val` for the rest of the object, so
that two distinct components can share a type. -/
structure Comp where
  kind : Nat
  val : Nat
deriving DecidableEq

/-- A loaded `gr.Interface`: its ordered input and output components. -/
structure Interface where
  input_components : List Comp
  output_components : List Comp
deriving DecidableEq

/-- `[type(input) for input in interface.input_components]` -/
def inputTypes (i : Interface) : List Nat := i.input_components.map Comp.kind

/-- `[type(output) for output in interface.output_components]` -/
def outputTypes (i : Interface) : List Nat := i.output_components.map Comp.kind

/-- The `for interface in interface_list:` loop of
`control_input_and_output_types`, with the first descriptor's type sequences
already computed.  (`np.all(xs == ys)` on two Python lists is just `xs == ys`:
list equality, elementwise with equal length.) -/
def ctrlLoop (st : SBState) (fin fout : List Nat) : List Interface → SBState × Outcome
  | [] => (st, .retTrue)
  | i :: rest =>
    if inputTypes i ≠ fin then
      ({ st with error_message := some inputMismatchMsg }, .retFalse)
    else if outputTypes i ≠ fout then
      ({ st with error_message := some outputMismatchMsg }, .retFalse)
    else
      ctrlLoop st fin fout rest

/-- `SpaceBuilder.control_input_and_output_types` (app.py lines 51-83).
`interface_list[0]` raises `IndexError` on an empty list, hence `.raised`. -/
def control_input_and_output_types (st : SBState) :
    List Interface → SBState × Outcome
  | [] => (st, .raised)
  | first :: rest => ctrlLoop st (inputTypes first) (outputTypes first) (first :: rest)

/-! ## Environments: one oracle field per remote / filesystem call -/

/-- The two remote calls of `check_space_name_availability`.
`get_full_repo_name model_id token` is `none` when the call raises, otherwise
the fully-qualified name; `requests_get url` is `none` when the request
raises, otherwise the HTTP status code. -/
structure AvailEnv where
  get_full_repo_name : PyStr → PyStr → Option PyStr
  requests_get : PyStr → Option Nat

/-- The remote call of `load_and_check_spaces`: `gr.Interface.load name` is
`none` when loading raises, otherwise the loaded interface. -/
structure LoadEnv where
  load : PyStr → Option Interface

/-- The remote and filesystem calls of `create_space`.  `create_repo name
token` is `false` when the call raises; `get_full_repo_name` as in
`AvailEnv` (a distinct oracle: a distinct network call); `open_ok` / `write_ok`
are `false` when `open("temp_file.txt", "w")` / `temp_file.write(...)` raise;
`upload_file repo_id token` is `false` when the upload raises. -/
structure CreateEnv where
  create_repo : PyStr → PyStr → Bool
  get_full_repo_name : PyStr → PyStr → Option PyStr
  open_ok : Bool
  write_ok : Bool
  upload_file : PyStr → PyStr → Bool

/-- All remote behaviour seen by one `build_space` invocation. -/
structure BuildEnv where
  avail : AvailEnv
  load : LoadEnv
  create : CreateEnv

/-- What happened to the `temp_file` handle during `create_space`. -/
structure FileTrace where
  opened : Bool
  closed : Bool
deriving DecidableEq

/-- No file operation took place. -/
def noFile : FileTrace := ⟨false, false⟩

/-! ## The four operations -/

/-- `SpaceBuilder.check_space_name_availability` (app.py lines 85-112).  Both
try blocks catch every exception, so the function always returns a boolean. -/
def check_space_name_availability (env : AvailEnv) (hf_token space_name : PyStr)
    (st : SBState) : Bool × SBState :=
  match env.get_full_repo_name space_name hf_token with
  | none => (false, { st with error_message := some incorrectTokenMsg })
  | some repo_name =>
    match env.requests_get (spacesUrl repo_name) with
    | none => (false, { st with error_message := some networkMsg })
    | some status =>
      if status = 200 then
        (false, { st with error_message := some (alreadyUsedMsg repo_name) })
      else
        (true, st)

/-- `SpaceBuilder.load_and_check_spaces` (app.py lines 114-138).  The list
comprehension `[gr.Interface.load(name) for name in name_list]` raises as soon
as one load raises (`mapM` over `Option`); that exception is caught.  The call
to `control_input_and_output_types` is not inside a try block, so its result —
including a raise — passes through unchanged. -/
def load_and_check_spaces (env : LoadEnv) (st : SBState) (names : PyStr) :
    SBState × Outcome :=
  let name_list := split_space_names names
  match name_list.mapM env.load with
  | none => ({ st with error_message := some unloadableMsg }, .retFalse)
  | some interfaces => control_input_and_output_types st interfaces

/-- Everything `create_space` produces: the final class state, how the call
exited, and what happened to the temporary-file handle. -/
structure CreateOut where
  state : SBState
  outcome : Outcome
  file : FileTrace
deriving DecidableEq

/-- `SpaceBuilder.create_space` (app.py lines 140-188).  Faithful to the
source's try blocks: `create_repo`, the open/write step and `upload_file` are
each wrapped in try/except and turn exceptions into `return False` with a
fixed message — but the `get_full_repo_name` call on line 159 stands OUTSIDE
every try block, so its exception propagates (`.raised`).  When
`temp_file.write` raises, control jumps to the except handler and
`temp_file.close()` on line 165 is never executed, so the handle stays open. -/
def create_space (env : CreateEnv)
    (input_space_names target_space_name hf_token _title _description : PyStr)
    (st : SBState) : CreateOut :=
  let _name_list := split_space_names input_space_names
  if !env.create_repo target_space_name hf_token then
    ⟨{ st with error_message := some badTargetNameMsg }, .retFalse, noFile⟩
  else
    match env.get_full_repo_name target_space_name hf_token with
    | none => ⟨st, .raised, noFile⟩
    | some repo_name =>
      if !env.open_ok then
        ⟨{ st with error_message := some fileWriteMsg }, .retFalse, ⟨false, false⟩⟩
      else if !env.write_ok then
        ⟨{ st with error_message := some fileWriteMsg }, .retFalse, ⟨true, false⟩⟩
      else if !env.upload_file repo_name hf_token then
        ⟨{ st with error_message := some uploadFailMsg }, .retFalse, ⟨true, true⟩⟩
      else
        ⟨{ st with url := some (spacesUrl repo_name) }, .retTrue, ⟨true, true⟩⟩

/-- The three remote phases of `build_space`, in source order. -/
inductive Phase where
  | avail
  | load
  | create
deriving DecidableEq

/-- What `build_space` hands back: the string it returns (`error_message` and
`url` are `Option`al class fields, so the returned value is an `Option PyStr`),
or an uncaught exception. -/
inductive BuildRet where
  | returned (s : Option PyStr)
  | raised
deriving DecidableEq

/-- The final class state, the value `build_space` returns, and the ordered
list of phases that were actually invoked. -/
structure BuildOut where
  state : SBState
  ret : BuildRet
  phases : List Phase
deriving DecidableEq

/-- `SpaceBuilder.build_space` (app.py lines 190-219): validate the five
fields, then availability check → interface load-and-check → repository
creation, short-circuiting on the first phase that returns `False` and
returning `SpaceBuilder.error_message`; on full success return
`SpaceBuilder.url`. -/
def build_space (env : BuildEnv)
    (space_names hf_token target_space_name interface_title interface_description : PyStr)
    (st : SBState) : BuildOut :=
  if pyBlank space_names || pyBlank hf_token || pyBlank target_space_name ||
      pyBlank interface_title || pyBlank interface_description then
    ⟨st, .returned (some fillAllInputsMsg), []⟩
  else
    let a := check_space_name_availability env.avail hf_token target_space_name st
    if !a.1 then
      ⟨a.2, .returned a.2.error_message, [.avail]⟩
    else
      let l := load_and_check_spaces env.load a.2 space_names
      match l.2 with
      | .raised => ⟨l.1, .raised, [.avail, .load]⟩
      | .retFalse => ⟨l.1, .returned l.1.error_message, [.avail, .load]⟩
      | .retTrue =>
        let c := create_space env.create space_names target_space_name hf_token
          interface_title interface_description l.1
        match c.outcome with
        | .raised => ⟨c.state, .raised, [.avail, .load, .create]⟩
        | .retFalse => ⟨c.state, .returned c.state.error_message, [.avail, .load, .create]⟩
        | .retTrue => ⟨c.state, .returned c.state.url, [.avail, .load, .create]⟩

/-! ## Theorems about `control_input_and_output_types` -/

/-- A descriptor whose type sequences do not both match the first
descriptor's. -/
def mismatches (fin fout : List Nat) (i : Interface) : Bool :=
  !(inputTypes i == fin && outputTypes i == fout)

theorem ctrlLoop_spec (st : SBState) (fin fout : List Nat) (l : List Interface) :
    ctrlLoop st fin fout l =
      match l.find? (mismatches fin fout) with
      | none => (st, .retTrue)
      | some i =>
        ({ st with error_message := some (if inputTypes i = fin then outputMismatchMsg else inputMismatchMsg) },
         .retFalse) := by
  induction l with
  | nil => rfl
  | cons i rest ih =>
    by_cases hi : inputTypes i = fin
    · have hib : (inputTypes i == fin) = true := beq_iff_eq.mpr hi
      by_cases ho : outputTypes i = fout
      · have hob : (outputTypes i == fout) = true := beq_iff_eq.mpr ho
        simp [ctrlLoop, hi, ho, hib, hob, List.find?, mismatches, ih]
      · have hob : (outputTypes i == fout) = false := by
          simpa using beq_eq_false_iff_ne.mpr ho
        simp [ctrlLoop, hi, ho, hib, hob, List.find?, mismatches]
    · have hib : (inputTypes i == fin) = false := by
        simpa using beq_eq_false_iff_ne.mpr hi
      simp [ctrlLoop, hi, hib, List.find?, mismatches]

/-- C2: on a non-empty descriptor list the checker finds the first descriptor
whose input- or output-type sequence differs from the first descriptor's;
it records the input-mismatch message when that descriptor's inputs differ and
the output-mismatch message when its inputs match (so the mismatch is on the
output axis), returning false; with no mismatching descriptor it returns true
and touches no state.  In particular the result is `retTrue` iff every
descriptor's input types equal the first's and likewise for output types. -/
theorem control_types_first_mismatch (st : SBState) (first : Interface)
    (rest : List Interface) :
    (control_input_and_output_types st (first :: rest) =
      match (first :: rest).find? (mismatches (inputTypes first) (outputTypes first)) with
      | none => (st, .retTrue)
      | some i =>
        ({ st with error_message := some (if inputTypes i = inputTypes first then outputMismatchMsg else inputMismatchMsg) },
         .retFalse))
    ∧ ((control_input_and_output_types st (first :: rest)).2 = .retTrue ↔
        ∀ i ∈ first :: rest,
          inputTypes i = inputTypes first ∧ outputTypes i = outputTypes first) := by
  have h := ctrlLoop_spec st (inputTypes first) (outputTypes first) (first :: rest)
  refine ⟨h, ?_⟩
  rw [show control_input_and_output_types st (first :: rest) =
        ctrlLoop st (inputTypes first) (outputTypes first) (first :: rest) from rfl, h]
  cases hf : (first :: rest).find? (mismatches (inputTypes first) (outputTypes first)) with
  | none =>
    simp only [List.find?_eq_none, mismatches] at hf
    constructor
    · intro _ i hi
      have := hf i hi
      simp only [Bool.not_eq_true', Bool.not_eq_false, Bool.and_eq_true, beq_iff_eq] at this
      exact this
    · intro _; rfl
  | some i =>
    have hmem : i ∈ first :: rest := List.mem_of_find?_eq_some hf
    have hbad : mismatches (inputTypes first) (outputTypes first) i = true :=
      List.find?_some hf
    simp only [mismatches, Bool.not_eq_true', Bool.and_eq_false_iff, beq_eq_false_iff_ne,
      ne_eq] at hbad
    constructor
    · intro hcontra
      simp at hcontra
    · intro hall
      have := hall i hmem
      rcases hbad with hb | hb <;> exact absurd (by tauto) hb

/-- C9: a single descriptor is always compatible with itself — the checker
returns true and the class state (in particular `error_message`) is
unchanged. -/
theorem control_types_singleton (st : SBState) (i : Interface) :
    control_input_and_output_types st [i] = (st, Outcome.retTrue) := by
  simp [control_input_and_output_types, ctrlLoop]

/-! ## Theorems about `split_space_names` -/

theorem splitNl_ne_nil (s : List Char) : splitNl s ≠ [] := by
  cases s with
  | nil => simp [splitNl]
  | cons c rest =>
    simp only [splitNl]
    cases splitNl rest with
    | nil => simp
    | cons l ls =>
      by_cases hc : c = '\n' <;> simp [hc]

theorem splitNl_cons_eq (c : Char) (rest hd : List Char) (tl : List PyStr)
    (h : splitNl rest = hd :: tl) :
    splitNl (c :: rest) = if c = '\n' then [] :: hd :: tl else (c :: hd) :: tl := by
  simp [splitNl, h]

theorem nl_not_mem_splitNl (s : List Char) : ∀ l ∈ splitNl s, '\n' ∉ l := by
  induction s with
  | nil =>
    intro l hl
    simp [splitNl] at hl
    simp [hl]
  | cons c rest ih =>
    intro l hl
    cases hsr : splitNl rest with
    | nil => exact absurd hsr (splitNl_ne_nil rest)
    | cons hd tl =>
      rw [splitNl_cons_eq c rest hd tl hsr] at hl
      by_cases hc : c = '\n'
      · rw [if_pos hc] at hl
        rcases List.mem_cons.mp hl with h | h
        · simp [h]
        · exact ih l (hsr ▸ h)
      · rw [if_neg hc] at hl
        rcases List.mem_cons.mp hl with h | h
        · subst h
          intro hmem
          rcases List.mem_cons.mp hmem with h' | h'
          · exact hc h'.symm
          · exact ih hd (hsr ▸ List.mem_cons_self hd tl) h'
        · exact ih l (hsr ▸ List.mem_cons_of_mem hd h)

theorem splitNl_no_nl (l : List Char) (h : '\n' ∉ l) : splitNl l = [l] := by
  induction l with
  | nil => rfl
  | cons c rest ih =>
    have hc : c ≠ '\n' := fun hc => h (hc ▸ List.mem_cons_self c rest)
    have hrest : '\n' ∉ rest := fun hm => h (List.mem_cons_of_mem c hm)
    rw [splitNl_cons_eq c rest rest [] (ih hrest), if_neg hc]

theorem splitNl_append_nl (a t : List Char) (h : '\n' ∉ a) :
    splitNl (a ++ '\n' :: t) = a :: splitNl t := by
  induction a with
  | nil =>
    cases hst : splitNl t with
    | nil => exact absurd hst (splitNl_ne_nil t)
    | cons hd tl =>
      rw [List.nil_append, splitNl_cons_eq '\n' t hd tl hst, if_pos rfl, hst.symm]

  | cons c a' ih =>
    have hc : c ≠ '\n' := fun hc => h (hc ▸ List.mem_cons_self c a')
    have ha' : '\n' ∉ a' := fun hm => h (List.mem_cons_of_mem c hm)
    rw [List.cons_append, splitNl_cons_eq c _ a' (splitNl t) (ih ha'), if_neg hc]

theorem split_space_names_joinNl :
    ∀ L : List PyStr, (∀ l ∈ L, '\n' ∉ l) → (∀ l ∈ L, pyBlank l = false) →
      split_space_names (joinNl L) = L := by
  intro L
  induction L with
  | nil => intro _ _; rfl
  | cons l L' ih =>
    intro hnl hk
    have h1 : '\n' ∉ l := hnl l (List.mem_cons_self l L')
    have h2 : pyBlank l = false := hk l (List.mem_cons_self l L')
    cases L' with
    | nil =>
      simp [joinNl, split_space_names, splitNl_no_nl l h1, h2]
    | cons l' L'' =>
      have ih' := ih (fun x hx => hnl x (List.mem_cons_of_mem l hx))
        (fun x hx => hk x (List.mem_cons_of_mem l hx))
      simp only [joinNl]
      simp only [split_space_names, splitNl_append_nl _ _ h1, List.filter_cons, h2,
        Bool.not_false, if_true]
      simpa [split_space_names] using ih'

/-- C10: `split_space_names` is idempotent under rejoining with newlines —
every element of its output is a newline-free, non-blank line, so joining the
output with `"\n"` and parsing again reproduces the output exactly. -/
theorem split_space_names_rejoin (s : PyStr) :
    split_space_names (joinNl (split_space_names s)) = split_space_names s
    ∧ ∀ l ∈ split_space_names s, '\n' ∉ l ∧ pyBlank l = false := by
  have hnl : ∀ l ∈ split_space_names s, '\n' ∉ l := fun l hl =>
    nl_not_mem_splitNl s l (List.mem_of_mem_filter hl)
  have hk : ∀ l ∈ split_space_names s, pyBlank l = false := by
    intro l hl
    have := List.of_mem_filter hl
    simpa using this
  exact ⟨split_space_names_joinNl _ hnl hk, fun l hl => ⟨hnl l hl, hk l hl⟩⟩

/-- C3 counterexample: the source does not trim lines.  On the input `" a"`
(one line with a leading space) `split_space_names` keeps the line verbatim,
while the spec's "trimmed" reading would strip the space. -/
theorem split_space_names_no_trim_cex :
    split_space_names (pyS " a") = [pyS " a"]
    ∧ split_space_names_spec (pyS " a") = [pyS "a"]
    ∧ split_space_names (pyS " a") ≠ split_space_names_spec (pyS " a") := by decide

/-- C3 amended: `split_space_names` returns the ordered sequence of the
original (untrimmed) non-blank lines — a sublist of the split lines, so order
and duplicates are preserved; every kept line is non-blank; every non-blank
line is kept with its multiplicity; empty input yields the empty sequence; and
the spec's own example holds. -/
theorem split_space_names_amended (s : PyStr) :
    (split_space_names s).Sublist (splitNl s)
    ∧ (∀ l ∈ split_space_names s, pyBlank l = false)
    ∧ (∀ l : PyStr, pyBlank l = false →
        (split_space_names s).count l = (splitNl s).count l)
    ∧ split_space_names [] = []
    ∧ split_space_names (pyS "a\n\n  \nb\nb\n") = [pyS "a", pyS "b", pyS "b"] := by
  refine ⟨List.filter_sublist _, ?_, ?_, by decide, by decide⟩
  · intro l hl
    have := List.of_mem_filter hl
    simpa using this
  · intro l hb
    simp [split_space_names, List.count_filter, hb]

/-! ## Theorems about `check_space_name_availability` and `build_space` -/

/-- C5: the availability check returns true exactly when credential
resolution succeeds and the registry lookup returns a non-200 status; it
returns false with the incorrect-token message when resolution raises, with
the network message when the lookup raises (a network failure is a failed
check, never availability), and with the name-already-used message on
status 200. -/
theorem check_space_name_availability_spec (env : AvailEnv)
    (hf_token space_name : PyStr) (st : SBState) :
    ((check_space_name_availability env hf_token space_name st).1 = true ↔
      ∃ r c, env.get_full_repo_name space_name hf_token = some r ∧
        env.requests_get (spacesUrl r) = some c ∧ c ≠ 200)
    ∧ (env.get_full_repo_name space_name hf_token = none →
        check_space_name_availability env hf_token space_name st =
          (false, { st with error_message := some incorrectTokenMsg }))
    ∧ (∀ r, env.get_full_repo_name space_name hf_token = some r →
        env.requests_get (spacesUrl r) = none →
        check_space_name_availability env hf_token space_name st =
          (false, { st with error_message := some networkMsg }))
    ∧ (∀ r, env.get_full_repo_name space_name hf_token = some r →
        env.requests_get (spacesUrl r) = some 200 →
        check_space_name_availability env hf_token space_name st =
          (false, { st with error_message := some (alreadyUsedMsg r) }))
    ∧ (∀ r c, env.get_full_repo_name space_name hf_token = some r →
        env.requests_get (spacesUrl r) = some c → c ≠ 200 →
        check_space_name_availability env hf_token space_name st = (true, st)) := by
  refine ⟨?_, ?_, ?_, ?_, ?_⟩
  · constructor
    · intro h
      cases h1 : env.get_full_repo_name space_name hf_token with
      | none => simp [check_space_name_availability, h1] at h
      | some rn =>
        cases h2 : env.requests_get (spacesUrl rn) with
        | none => simp [check_space_name_availability, h1, h2] at h
        | some c =>
          by_cases hs : c = 200
          · subst hs
            simp [check_space_name_availability, h1, h2] at h
          · exact ⟨rn, c, rfl, h2, hs⟩
    · rintro ⟨r, c, hr, hc, hne⟩
      simp [check_space_name_availability, hr, hc, hne]
  · intro h1
    simp [check_space_name_availability, h1]
  · intro r hr hc
    simp [check_space_name_availability, hr, hc]
  · intro r hr hc
    simp [check_space_name_availability, hr, hc]
  · intro r c hr hc hne
    simp [check_space_name_availability, hr, hc, hne]

/-- C4: when any of the five fields is empty or whitespace-only,
`build_space` returns exactly "Please fill all the inputs", the state is
untouched and no phase — hence no remote call — is invoked. -/
theorem build_space_blank_fields (env : BuildEnv) (s1 s2 s3 s4 s5 : PyStr)
    (st : SBState)
    (h : (pyBlank s1 || pyBlank s2 || pyBlank s3 || pyBlank s4 || pyBlank s5) = true) :
    build_space env s1 s2 s3 s4 s5 st =
      ⟨st, .returned (some fillAllInputsMsg), []⟩ := by
  simp only [build_space, h, if_true]

theorem build_space_blank_fields_witness :
    build_space
      ⟨⟨fun _ _ => none, fun _ => none⟩, ⟨fun _ => none⟩,
       ⟨fun _ _ => false, fun _ _ => none, false, false, fun _ _ => false⟩⟩
      (pyS "") (pyS "tok") (pyS "name") (pyS "Title") (pyS "Desc") initState =
      ⟨initState, .returned (some fillAllInputsMsg), []⟩ :=
  build_space_blank_fields _ _ _ _ _ _ _ (by decide)

/-- C1: with all five fields non-blank, `build_space` runs the three phases
in strict order — availability check, interface load-and-check, repository
creation — as the `phases` trace records.  A phase returning false
short-circuits: the function returns that phase's recorded message and no
later phase appears in the trace; when all three succeed it returns the
constructed URL. -/
theorem build_space_phase_order (env : BuildEnv) (s1 s2 s3 s4 s5 : PyStr)
    (st : SBState)
    (h1 : pyBlank s1 = false) (h2 : pyBlank s2 = false) (h3 : pyBlank s3 = false)
    (h4 : pyBlank s4 = false) (h5 : pyBlank s5 = false) :
    ((check_space_name_availability env.avail s2 s3 st).1 = false →
      build_space env s1 s2 s3 s4 s5 st =
        ⟨(check_space_name_availability env.avail s2 s3 st).2,
         .returned (check_space_name_availability env.avail s2 s3 st).2.error_message,
         [Phase.avail]⟩)
    ∧ ((check_space_name_availability env.avail s2 s3 st).1 = true →
        (load_and_check_spaces env.load
            (check_space_name_availability env.avail s2 s3 st).2 s1).2 = Outcome.retFalse →
        build_space env s1 s2 s3 s4 s5 st =
          ⟨(load_and_check_spaces env.load
              (check_space_name_availability env.avail s2 s3 st).2 s1).1,
           .returned (load_and_check_spaces env.load
              (check_space_name_availability env.avail s2 s3 st).2 s1).1.error_message,
           [Phase.avail, Phase.load]⟩)
    ∧ ((check_space_name_availability env.avail s2 s3 st).1 = true →
        (load_and_check_spaces env.load
            (check_space_name_availability env.avail s2 s3 st).2 s1).2 = Outcome.retTrue →
        (create_space env.create s1 s3 s2 s4 s5
            (load_and_check_spaces env.load
              (check_space_name_availability env.avail s2 s3 st).2 s1).1).outcome =
          Outcome.retFalse →
        build_space env s1 s2 s3 s4 s5 st =
          ⟨(create_space env.create s1 s3 s2 s4 s5
              (load_and_check_spaces env.load
                (check_space_name_availability env.avail s2 s3 st).2 s1).1).state,
           .returned (create_space env.create s1 s3 s2 s4 s5
              (load_and_check_spaces env.load
                (check_space_name_availability env.avail s2 s3 st).2 s1).1).state.error_message,
           [Phase.avail, Phase.load, Phase.create]⟩)
    ∧ ((check_space_name_availability env.avail s2 s3 st).1 = true →
        (load_and_check_spaces env.load
            (check_space_name_availability env.avail s2 s3 st).2 s1).2 = Outcome.retTrue →
        (create_space env.create s1 s3 s2 s4 s5
            (load_and_check_spaces env.load
              (check_space_name_availability env.avail s2 s3 st).2 s1).1).outcome =
          Outcome.retTrue →
        build_space env s1 s2 s3 s4 s5 st =
          ⟨(create_space env.create s1 s3 s2 s4 s5
              (load_and_check_spaces env.load
                (check_space_name_availability env.avail s2 s3 st).2 s1).1).state,
           .returned (create_space env.create s1 s3 s2 s4 s5
              (load_and_check_spaces env.load
                (check_space_name_availability env.avail s2 s3 st).2 s1).1).state.url,
           [Phase.avail, Phase.load, Phase.create]⟩) := by
  have hb : (pyBlank s1 || pyBlank s2 || pyBlank s3 || pyBlank s4 ||
      pyBlank s5) = false := by
    simp [h1, h2, h3, h4, h5]
  refine ⟨?_, ?_, ?_, ?_⟩
  · intro ha
    simp [build_space, hb, ha]
  · intro ha hl
    simp [build_space, hb, ha, hl]
  · intro ha hl hc
    simp [build_space, hb, ha, hl, hc]
  · intro ha hl hc
    simp [build_space, hb, ha, hl, hc]

theorem build_space_phase_order_witness :
    build_space
      ⟨⟨fun _ _ => none, fun _ => none⟩, ⟨fun _ => none⟩,
       ⟨fun _ _ => false, fun _ _ => none, true, true, fun _ _ => false⟩⟩
      (pyS "spaces/a/b") (pyS "tok") (pyS "name") (pyS "Title") (pyS "Desc")
      initState =
      ⟨⟨some incorrectTokenMsg, none⟩, .returned (some incorrectTokenMsg),
       [Phase.avail]⟩ :=
  (build_space_phase_order
    ⟨⟨fun _ _ => none, fun _ => none⟩, ⟨fun _ => none⟩,
     ⟨fun _ _ => false, fun _ _ => none, true, true, fun _ _ => false⟩⟩
    (pyS "spaces/a/b") (pyS "tok") (pyS "name") (pyS "Title") (pyS "Desc")
    initState
    (by decide) (by decide) (by decide) (by decide) (by decide)).1 (by decide)

/-! ## Theorems about `create_space` -/

/-- C6 counterexample: when repository creation succeeds but the
`get_full_repo_name` call on app.py line 159 raises, `create_space` does not
catch the exception — it propagates raw to the caller, contradicting the
claim that every remote step's exception is caught and converted. -/
theorem create_space_uncaught_resolution_cex :
    (create_space ⟨fun _ _ => true, fun _ _ => none, true, true, fun _ _ => true⟩
      (pyS "spaces/a/b") (pyS "name") (pyS "tok") (pyS "Title") (pyS "Desc")
      initState).outcome = Outcome.raised := by decide

/-- C6 amended: exceptions raised by repository creation, by the temporary
file open/write, and by the upload are each caught at their step and turned
into `return False` with that step's fixed message; but an exception raised by
the fully-qualified-name resolution (app.py line 159, outside every try
block) is not caught — `create_space` raises exactly when repository creation
succeeded and that resolution raised. -/
theorem create_space_exception_policy (env : CreateEnv)
    (ns tgt tok ti de : PyStr) (st : SBState) :
    ((create_space env ns tgt tok ti de st).outcome = Outcome.raised ↔
      env.create_repo tgt tok = true ∧ env.get_full_repo_name tgt tok = none)
    ∧ (env.create_repo tgt tok = false →
        create_space env ns tgt tok ti de st =
          ⟨{ st with error_message := some badTargetNameMsg }, .retFalse, noFile⟩)
    ∧ (∀ r, env.create_repo tgt tok = true →
        env.get_full_repo_name tgt tok = some r →
        (env.open_ok && env.write_ok) = false →
        create_space env ns tgt tok ti de st =
          ⟨{ st with error_message := some fileWriteMsg }, .retFalse,
           ⟨env.open_ok, false⟩⟩)
    ∧ (∀ r, env.create_repo tgt tok = true →
        env.get_full_repo_name tgt tok = some r →
        env.open_ok = true → env.write_ok = true →
        env.upload_file r tok = false →
        create_space env ns tgt tok ti de st =
          ⟨{ st with error_message := some uploadFailMsg }, .retFalse,
           ⟨true, true⟩⟩) := by
  refine ⟨?_, ?_, ?_, ?_⟩
  · cases hcr : env.create_repo tgt tok with
    | false => simp [create_space, hcr]
    | true =>
      cases hfr : env.get_full_repo_name tgt tok with
      | none => simp [create_space, hcr, hfr]
      | some r =>
        cases ho : env.open_ok with
        | false => simp [create_space, hcr, hfr, ho]
        | true =>
          cases hw : env.write_ok with
          | false => simp [create_space, hcr, hfr, ho, hw]
          | true =>
            cases hu : env.upload_file r tok with
            | false => simp [create_space, hcr, hfr, ho, hw, hu]
            | true => simp [create_space, hcr, hfr, ho, hw, hu]
  · intro hcr
    simp [create_space, hcr]
  · intro r hcr hfr how
    rcases Bool.and_eq_false_iff.mp how with ho | hw
    · simp [create_space, hcr, hfr, ho]
    · cases ho : env.open_ok with
      | false => simp [create_space, hcr, hfr, ho]
      | true => simp [create_space, hcr, hfr, ho, hw]
  · intro r hcr hfr ho hw hu
    simp [create_space, hcr, hfr, ho, hw, hu]

/-- C7 counterexample: on the exit path where `temp_file.write` raises, the
except handler returns false without ever calling `temp_file.close()`: the
handle was opened and is not closed, contradicting "guaranteed to be closed
on every exit path". -/
theorem create_space_file_left_open_cex :
    create_space ⟨fun _ _ => true, fun _ _ => some (pyS "owner/name"), true,
        false, fun _ _ => true⟩
      (pyS "spaces/a/b") (pyS "name") (pyS "tok") (pyS "Title") (pyS "Desc")
      initState =
      ⟨⟨some fileWriteMsg, none⟩, Outcome.retFalse, ⟨true, false⟩⟩ := by decide

/-- C7 amended: the temporary-file handle is closed exactly on the exit paths
where the write succeeded; on the exit path where the write raises, the handle
was opened but is left unclosed and the step returns false. -/
theorem create_space_file_close (env : CreateEnv) (ns tgt tok ti de : PyStr)
    (st : SBState) :
    ((create_space env ns tgt tok ti de st).file.closed = true ↔
      (create_space env ns tgt tok ti de st).file.opened = true ∧
        env.write_ok = true)
    ∧ ((create_space env ns tgt tok ti de st).file.opened = true →
        env.write_ok = false →
        (create_space env ns tgt tok ti de st).file = ⟨true, false⟩ ∧
          (create_space env ns tgt tok ti de st).outcome = Outcome.retFalse) := by
  cases hcr : env.create_repo tgt tok with
  | false => simp [create_space, hcr, noFile]
  | true =>
    cases hfr : env.get_full_repo_name tgt tok with
    | none => simp [create_space, hcr, hfr, noFile]
    | some r =>
      cases ho : env.open_ok with
      | false => simp [create_space, hcr, hfr, ho]
      | true =>
        cases hw : env.write_ok with
        | false => simp [create_space, hcr, hfr, ho, hw]
        | true =>
          cases hu : env.upload_file r tok with
          | false => simp [create_space, hcr, hfr, ho, hw, hu]
          | true => simp [create_space, hcr, hfr, ho, hw, hu]

/-- Helper: how `create_space` treats the `url` field, by cases over the
environment. -/
theorem create_space_url_state (env : CreateEnv) (ns tgt tok ti de : PyStr)
    (st : SBState) :
    ((create_space env ns tgt tok ti de st).outcome ≠ Outcome.retTrue →
      (create_space env ns tgt tok ti de st).state.url = st.url)
    ∧ ((create_space env ns tgt tok ti de st).outcome = Outcome.retTrue →
        ∃ r, env.get_full_repo_name tgt tok = some r ∧
          env.upload_file r tok = true ∧
          (create_space env ns tgt tok ti de st).state.url =
            some (spacesUrl r)) := by
  cases hcr : env.create_repo tgt tok with
  | false => simp [create_space, hcr]
  | true =>
    cases hfr : env.get_full_repo_name tgt tok with
    | none => simp [create_space, hcr, hfr]
    | some r =>
      cases ho : env.open_ok with
      | false => simp [create_space, hcr, hfr, ho]
      | true =>
        cases hw : env.write_ok with
        | false => simp [create_space, hcr, hfr, ho, hw]
        | true =>
          cases hu : env.upload_file r tok with
          | false => simp [create_space, hcr, hfr, ho, hw, hu]
          | true => simp [create_space, hcr, hfr, ho, hw, hu]

/-- C8: the `url` field is written only by the full-success path of
`create_space` — after a successful upload — and then holds
`https://huggingface.co/spaces/<fully-qualified name>`; every non-success
exit leaves `url` untouched.  Consequently, when all phases of `build_space`
succeed, `build_space` returns exactly that URL. -/
theorem url_only_on_full_success :
    (∀ (env : CreateEnv) (ns tgt tok ti de : PyStr) (st : SBState),
      ((create_space env ns tgt tok ti de st).outcome ≠ Outcome.retTrue →
        (create_space env ns tgt tok ti de st).state.url = st.url)
      ∧ ((create_space env ns tgt tok ti de st).outcome = Outcome.retTrue →
          ∃ r, env.get_full_repo_name tgt tok = some r ∧
            env.upload_file r tok = true ∧
            (create_space env ns tgt tok ti de st).state.url =
              some (spacesUrl r)))
    ∧ (∀ (env : BuildEnv) (s1 s2 s3 s4 s5 : PyStr) (st : SBState),
        (pyBlank s1 || pyBlank s2 || pyBlank s3 || pyBlank s4 ||
          pyBlank s5) = false →
        (check_space_name_availability env.avail s2 s3 st).1 = true →
        (load_and_check_spaces env.load
            (check_space_name_availability env.avail s2 s3 st).2 s1).2 =
          Outcome.retTrue →
        (create_space env.create s1 s3 s2 s4 s5
            (load_and_check_spaces env.load
              (check_space_name_availability env.avail s2 s3 st).2 s1).1).outcome =
          Outcome.retTrue →
        ∃ r, env.create.get_full_repo_name s3 s2 = some r ∧
          (build_space env s1 s2 s3 s4 s5 st).ret =
            .returned (some (spacesUrl r))) := by
  constructor
  · intro env ns tgt tok ti de st
    exact create_space_url_state env ns tgt tok ti de st
  · intro env s1 s2 s3 s4 s5 st hb ha hl hc
    obtain ⟨r, hfr, -, hurl⟩ :=
      (create_space_url_state env.create s1 s3 s2 s4 s5
        (load_and_check_spaces env.load
          (check_space_name_availability env.avail s2 s3 st).2 s1).1).2 hc
    refine ⟨r, hfr, ?_⟩
    have : build_space env s1 s2 s3 s4 s5 st =
        ⟨(create_space env.create s1 s3 s2 s4 s5
            (load_and_check_spaces env.load
              (check_space_name_availability env.avail s2 s3 st).2 s1).1).state,
         .returned (create_space env.create s1 s3 s2 s4 s5
            (load_and_check_spaces env.load
              (check_space_name_availability env.avail s2 s3 st).2 s1).1).state.url,
         [Phase.avail, Phase.load, Phase.create]⟩ := by
      simp [build_space, hb, ha, hl, hc]
    rw [this, hurl]

end SpaceBuilder
